import Mathlib

/-!
Verification of the COSME Vehicle Tracker (Flask app: `models.py`, `app.py`).

The embedding below translates the data model and the route handlers that
the claims refer to into pure Lean definitions:

* SQLAlchemy rows become structures; the booking table becomes a
  `List Booking` in insertion order (`query.first()` is `List.head?` of the
  filtered list).
* `datetime` values are modelled as `Int` timestamps: the code only ever
  compares them, so any linearly ordered type with decidable order is a
  faithful model.  `date` values are likewise `Int`.
* Python `float` form fields (fuel, cost) are modelled as `Rat`: the code
  only parses, stores and sign-checks them.
* An HTML form field is a `RawField α`: `empty` (the field was missing or
  blank), `invalid` (present but failed parsing, e.g. `ValueError` from
  `int(...)` / `datetime.fromisoformat`), or `parsed a`.
* A route handler becomes a function from the relevant state slice and the
  form to the new state plus an outcome; the "errors → flash + re-render"
  paths leave the state unchanged, the "commit" path returns the updated
  state.
-/

namespace Cosme

/-- Booking.status column: pending | approved | completed | cancelled. -/
inductive BStatus where
  | pending
  | approved
  | completed
  | cancelled
deriving DecidableEq, Repr

/-- Vehicle.status column: available | in_use | maintenance. -/
inductive VStatus where
  | available
  | in_use
  | maintenance
deriving DecidableEq, Repr

/-- MaintenanceRecord.status column: scheduled | in_progress | completed | cancelled. -/
inductive MStatus where
  | scheduled
  | in_progress
  | completed
  | cancelled
deriving DecidableEq, Repr

/-- The `users` table of `models.py` (class `User`, lines 18-57): columns
`id`, `username`, `email`, `password_hash`, `full_name`, `role`
(admin | driver | requester), `is_active_user`, `created_at`. -/
structure User where
  id : Nat
  username : String
  email : String
  password_hash : String
  full_name : String
  role : String
  is_active_user : Bool
  created_at : Int
deriving DecidableEq, Repr

/-- The column names of the `users` table exactly as declared in
`models.py` lines 21-32, in declaration order. -/
def userColumns : List String :=
  ["id", "username", "email", "password_hash", "full_name", "role",
   "is_active_user", "created_at"]

/-- The `vehicles` table of `models.py` (class `Vehicle`). -/
structure Vehicle where
  id : Nat
  registration_number : String
  make : String
  model : String
  status : VStatus
deriving DecidableEq, Repr

/-- The `bookings` table of `models.py` (class `Booking`).  Nullable columns
are `Option`; planned datetimes are `Int` timestamps. -/
structure Booking where
  id : Nat
  requester_name : String
  requester_id : Option Nat
  driver_id : Option Nat
  vehicle_id : Nat
  start_datetime_planned : Int
  end_datetime_planned : Int
  route_from : String
  route_to : String
  purpose : String
  activity_code : Option String
  project_code : Option String
  status : BStatus
  created_at : Int
  updated_at : Int
deriving DecidableEq, Repr

/-- The `trips` table of `models.py` (class `Trip`).  The `odometer_start`
column is nullable in the schema but is always set by `trip_start` (the only
code path that creates a `Trip`), and `trip_end` compares against it
unguardedly, so it is modelled as a plain `Int`. -/
structure Trip where
  booking_id : Nat
  start_actual_datetime : Option Int
  end_actual_datetime : Option Int
  odometer_start : Int
  odometer_end : Option Int
  distance : Option Int
  fuel_used : Option Rat
  fuel_cost : Option Rat
  remarks : Option String
deriving DecidableEq, Repr

/-- The `maintenance_records` table of `models.py` (class `MaintenanceRecord`). -/
structure MaintenanceRecord where
  id : Nat
  vehicle_id : Nat
  maintenance_type : String
  description : String
  scheduled_date : Int
  completed_date : Option Int
  cost : Option Rat
  status : MStatus
  created_by_id : Option Nat
deriving DecidableEq, Repr

/-- Truth of `Booking.status.in_(["pending", "approved"])` for one status. -/
def BStatus.isActiveStatus : BStatus → Bool
  | .pending => true
  | .approved => true
  | .completed => false
  | .cancelled => false

/-- The row filter built by `check_booking_conflict` (`models.py` lines
247-257): same vehicle, status pending or approved, strict overlap
(`start_datetime_planned < end_dt` and `end_datetime_planned > start_dt`),
and, when `exclude_booking_id` is given, a different id. -/
def bookingMatches (vehicle_id : Nat) (start_dt end_dt : Int)
    (exclude_booking_id : Option Nat) (b : Booking) : Bool :=
  b.vehicle_id == vehicle_id
    && b.status.isActiveStatus
    && b.start_datetime_planned < end_dt
    && b.end_datetime_planned > start_dt
    && (match exclude_booking_id with
        | some i => b.id != i
        | none => true)

/-- `check_booking_conflict` (`models.py` lines 223-259): return the first
stored booking passing the filter, or `None`. -/
def check_booking_conflict (store : List Booking) (vehicle_id : Nat)
    (start_dt end_dt : Int) (exclude_booking_id : Option Nat) : Option Booking :=
  (store.filter (bookingMatches vehicle_id start_dt end_dt exclude_booking_id)).head?

/-- Whatever `check_booking_conflict` returns passed its own row filter. -/
theorem check_booking_conflict_some_matches {store : List Booking}
    {vehicle_id : Nat} {start_dt end_dt : Int} {excl : Option Nat} {b : Booking}
    (h : check_booking_conflict store vehicle_id start_dt end_dt excl = some b) :
    b ∈ store ∧ bookingMatches vehicle_id start_dt end_dt excl b = true := by
  unfold check_booking_conflict at h
  have hmem := List.mem_of_mem_head? (l := store.filter (bookingMatches vehicle_id start_dt end_dt excl)) (by rw [h]; exact rfl)
  exact ⟨(List.mem_filter.mp hmem).1, (List.mem_filter.mp hmem).2⟩

/-- The row filter with no exclusion, written out as a proposition. -/
theorem bookingMatches_none_iff (V : Nat) (A B : Int) (b : Booking) :
    bookingMatches V A B none b = true ↔
      b.vehicle_id = V ∧
        (b.status = BStatus.pending ∨ b.status = BStatus.approved) ∧
        b.start_datetime_planned < B ∧ b.end_datetime_planned > A := by
  cases hb : b.status <;>
    simp [bookingMatches, BStatus.isActiveStatus, hb, and_assoc]

/-- Claim C1: `check_booking_conflict(V, A, B)` with no exclusion returns a
non-None booking iff some stored booking for vehicle `V` with status pending
or approved has planned interval `[s, e]` with `s < B` and `e > A`; and the
booking it returns is itself pending or approved, so cancelled or completed
bookings never make it return non-None. -/
theorem check_booking_conflict_spec (store : List Booking) (V : Nat) (A B : Int) :
    ((check_booking_conflict store V A B none).isSome = true ↔
      ∃ b ∈ store, b.vehicle_id = V ∧
        (b.status = BStatus.pending ∨ b.status = BStatus.approved) ∧
        b.start_datetime_planned < B ∧ b.end_datetime_planned > A) ∧
    (check_booking_conflict store V A B none).all
        (fun b => b.status.isActiveStatus) = true := by
  constructor
  · rw [check_booking_conflict, List.head?_isSome, Ne, List.filter_eq_nil_iff]
    push_neg
    constructor
    · rintro ⟨b, hb, hm⟩
      exact ⟨b, hb, (bookingMatches_none_iff V A B b).mp hm⟩
    · rintro ⟨b, hb, hm⟩
      exact ⟨b, hb, (bookingMatches_none_iff V A B b).mpr hm⟩
  · cases h : check_booking_conflict store V A B none with
    | none => rfl
    | some b =>
      have hm := (check_booking_conflict_some_matches h).2
      simp only [bookingMatches, Bool.and_eq_true] at hm
      simpa [Option.all] using hm.1.1.1.2

/-- A concrete pending booking for vehicle 1 over `[0, 10]`. -/
def bkg1 : Booking :=
  { id := 1, requester_name := "a", requester_id := none, driver_id := none,
    vehicle_id := 1, start_datetime_planned := 0, end_datetime_planned := 10,
    route_from := "x", route_to := "y", purpose := "p", activity_code := none,
    project_code := none, status := BStatus.pending, created_at := 0,
    updated_at := 0 }

/-- A concrete pending booking for vehicle 1 over `[5, 15]`, overlapping `bkg1`. -/
def bkg2 : Booking :=
  { bkg1 with id := 2, start_datetime_planned := 5, end_datetime_planned := 15 }

/-- Claim C2 counterexample: with two overlapping active bookings stored for
the same vehicle, querying the first booking's own interval while excluding
its own id does not return `None`: it returns the other overlapping booking.
So excluding a stored active booking's own id does not always yield `None`
for its own interval. -/
theorem check_booking_conflict_exclude_self_cex :
    bkg1 ∈ [bkg1, bkg2] ∧ bkg1.status = BStatus.pending ∧
      check_booking_conflict [bkg1, bkg2] bkg1.vehicle_id
        bkg1.start_datetime_planned bkg1.end_datetime_planned (some bkg1.id) ≠
        none := by
  decide

/-- Claim C2 (amended): a query that excludes booking id `I` never returns
the booking with id `I` itself; in particular, when the excluded booking is
the only stored active overlapping booking for the vehicle, the query
returns `None`. -/
theorem check_booking_conflict_exclude_self (store : List Booking)
    (V I : Nat) (s e : Int) (b : Booking)
    (h : check_booking_conflict store V s e (some I) = some b) : b.id ≠ I := by
  have hm := (check_booking_conflict_some_matches h).2
  simp only [bookingMatches, Bool.and_eq_true] at hm
  simpa using hm.2

/-- Witness for claim C2 (amended) at a concrete store. -/
theorem check_booking_conflict_exclude_self_witness : bkg2.id ≠ 1 :=
  check_booking_conflict_exclude_self [bkg1, bkg2] 1 1 0 10 bkg2 (by decide)

/-- Claim C3: for a stored active booking `b` for vehicle `V` with planned
interval `[s, e]`, a query for the adjacent interval `[e, e + d]` (any
`d > 0`) never reports `b` as a conflict. -/
theorem check_booking_conflict_adjacent (store : List Booking) (V : Nat)
    (b : Booking) (d : Int) (_hmem : b ∈ store) (_hv : b.vehicle_id = V)
    (_hact : b.status = BStatus.pending ∨ b.status = BStatus.approved)
    (_hd : 0 < d) :
    check_booking_conflict store V b.end_datetime_planned
      (b.end_datetime_planned + d) none ≠ some b := by
  intro h
  have hm := (check_booking_conflict_some_matches h).2
  rw [bookingMatches_none_iff] at hm
  exact lt_irrefl _ hm.2.2.2

/-- Witness for claim C3 at a concrete store. -/
theorem check_booking_conflict_adjacent_witness :
    check_booking_conflict [bkg1] 1 bkg1.end_datetime_planned
      (bkg1.end_datetime_planned + 1) none ≠ some bkg1 :=
  check_booking_conflict_adjacent [bkg1] 1 bkg1 1 (by decide) (by decide)
    (Or.inl (by decide)) (by decide)

/-- An HTML form field: missing or blank, present but unparsable, or parsed. -/
inductive RawField (α : Type) where
  | empty
  | invalid
  | parsed (a : α)
deriving DecidableEq, Repr

/-- The state slice the trip routes read and write: the booking, its
(at most one) trip, and its vehicle. -/
structure TripDB where
  booking : Booking
  trip : Option Trip
  vehicle : Vehicle
deriving DecidableEq, Repr

/-- The POST form of `trip_start`. -/
structure TripStartForm where
  start_actual_datetime : RawField Int
  odometer_start : RawField Int
deriving DecidableEq, Repr

/-- The POST form of `trip_end`.  `remarks` arrives already stripped; the
empty string is stored as NULL. -/
structure TripEndForm where
  end_actual_datetime : RawField Int
  odometer_end : RawField Int
  fuel_used : RawField Rat
  fuel_cost : RawField Rat
  remarks : String
deriving DecidableEq, Repr

/-- Validation errors collected by the `trip_start` POST handler
(`app.py` lines 1104-1127), in source order.  Interpolated values are
dropped from the message text. -/
def tripStartErrors (f : TripStartForm) : List String :=
  (match f.start_actual_datetime with
    | RawField.empty => ["Start date/time is required."]
    | RawField.invalid => ["Invalid start date/time format."]
    | RawField.parsed _ => []) ++
  (match f.odometer_start with
    | RawField.empty => ["Odometer reading is required."]
    | RawField.invalid => ["Odometer reading must be a whole number."]
    | RawField.parsed o =>
        if o < 0 then ["Odometer reading cannot be negative."] else [])

/-- `trip_start` (`app.py` lines 1089-1147): only an approved booking with
no existing trip may start one; on success a `Trip` row is created with the
submitted start time and odometer and the vehicle is marked `in_use`.  The
`Bool` is whether the commit happened. -/
def trip_start (st : TripDB) (f : TripStartForm) : TripDB × Bool :=
  if st.booking.status ≠ BStatus.approved then (st, false)
  else if st.trip.isSome then (st, false)
  else if tripStartErrors f ≠ [] then (st, false)
  else
    match f.start_actual_datetime, f.odometer_start with
    | RawField.parsed s, RawField.parsed o =>
        ({ st with
            trip := some { booking_id := st.booking.id,
                           start_actual_datetime := some s,
                           end_actual_datetime := none,
                           odometer_start := o, odometer_end := none,
                           distance := none, fuel_used := none,
                           fuel_cost := none, remarks := none },
            vehicle := { st.vehicle with status := VStatus.in_use } }, true)
    | _, _ => (st, false)

/-- Validation errors collected by the `trip_end` POST handler
(`app.py` lines 1162-1214), in source order. -/
def tripEndErrors (t : Trip) (f : TripEndForm) : List String :=
  (match f.end_actual_datetime with
    | RawField.empty => ["End date/time is required."]
    | RawField.invalid => ["Invalid end date/time format."]
    | RawField.parsed _ => []) ++
  (match f.odometer_end with
    | RawField.empty => ["Odometer reading is required."]
    | RawField.invalid => ["Odometer reading must be a whole number."]
    | RawField.parsed _ => []) ++
  (match f.end_actual_datetime, t.start_actual_datetime with
    | RawField.parsed e, some s =>
        if e ≤ s then ["End date/time must be after the trip start time."]
        else []
    | _, _ => []) ++
  (match f.odometer_end with
    | RawField.parsed oe =>
        if oe < t.odometer_start then
          ["End odometer cannot be less than start odometer."]
        else []
    | _ => []) ++
  (match f.fuel_used with
    | RawField.empty => []
    | RawField.invalid => ["Fuel used must be a number."]
    | RawField.parsed q => if q < 0 then ["Fuel used cannot be negative."] else []) ++
  (match f.fuel_cost with
    | RawField.empty => []
    | RawField.invalid => ["Fuel cost must be a number."]
    | RawField.parsed q => if q < 0 then ["Fuel cost cannot be negative."] else [])

/-- `trip_end` (`app.py` lines 1150-1239): requires an existing trip whose
end time is unset; on success it records end time, end odometer,
`distance = odometer_end - odometer_start`, fuel data and remarks, marks
the booking `completed` and the vehicle `available`.  The `Bool` is whether
the commit happened. -/
def trip_end (st : TripDB) (f : TripEndForm) : TripDB × Bool :=
  match st.trip with
  | none => (st, false)
  | some t =>
    if t.end_actual_datetime.isSome then (st, false)
    else if tripEndErrors t f ≠ [] then (st, false)
    else
      match f.end_actual_datetime, f.odometer_end with
      | RawField.parsed e, RawField.parsed oe =>
          ({ booking := { st.booking with status := BStatus.completed },
             trip := some { t with
               end_actual_datetime := some e,
               odometer_end := some oe,
               distance := some (oe - t.odometer_start),
               fuel_used := (match f.fuel_used with
                 | RawField.parsed q => some q
                 | _ => none),
               fuel_cost := (match f.fuel_cost with
                 | RawField.parsed q => some q
                 | _ => none),
               remarks := if f.remarks = "" then none else some f.remarks },
             vehicle := { st.vehicle with status := VStatus.available } }, true)
      | _, _ => (st, false)

/-- Claim C6: a trip can only be started when the booking is approved and
has no trip yet (otherwise `trip_start` changes nothing), can only be ended
while a trip exists with its end time unset (otherwise `trip_end` changes
nothing), and when `trip_end` commits the booking becomes `completed`. -/
theorem trip_lifecycle_spec :
    (∀ st f, (st.booking.status ≠ BStatus.approved ∨ st.trip.isSome = true) →
      trip_start st f = (st, false)) ∧
    (∀ st f, (st.trip = none ∨
        ∃ t e, st.trip = some t ∧ t.end_actual_datetime = some e) →
      trip_end st f = (st, false)) ∧
    (∀ st f r, trip_end st f = (r, true) →
      r.booking.status = BStatus.completed) := by
  refine ⟨?_, ?_, ?_⟩
  · intro st f h
    rcases h with h | h
    · simp [trip_start, h]
    · by_cases hst : st.booking.status = BStatus.approved <;>
        simp [trip_start, hst, h]
  · intro st f h
    rcases h with h | ⟨t, e, ht, he⟩
    · simp [trip_end, h]
    · simp [trip_end, ht, he]
  · intro st f r h
    cases hT : st.trip with
    | none => simp [trip_end, hT] at h
    | some t =>
      simp only [trip_end, hT] at h
      split at h
      · simp at h
      · split at h
        · simp at h
        · split at h
          · simp only [Prod.mk.injEq] at h
            rw [← h.1]
          · simp at h

/-- A concrete vehicle. -/
def veh1 : Vehicle :=
  { id := 1, registration_number := "KAA 001A", make := "Toyota",
    model := "Hilux", status := VStatus.available }

/-- `bkg1` after approval. -/
def bkgApproved : Booking := { bkg1 with status := BStatus.approved }

/-- A trip started at time 0 with odometer 100 and no end data yet. -/
def trip0 : Trip :=
  { booking_id := 1, start_actual_datetime := some 0,
    end_actual_datetime := none, odometer_start := 100, odometer_end := none,
    distance := none, fuel_used := none, fuel_cost := none, remarks := none }

/-- State with an approved booking and an active (unended) trip. -/
def stActive : TripDB :=
  { booking := bkgApproved, trip := some trip0,
    vehicle := { veh1 with status := VStatus.in_use } }

/-- A well-formed `trip_start` form. -/
def startFormOk : TripStartForm :=
  { start_actual_datetime := RawField.parsed 0,
    odometer_start := RawField.parsed 100 }

/-- A well-formed `trip_end` form ending at time 5 with odometer 150. -/
def endFormOk : TripEndForm :=
  { end_actual_datetime := RawField.parsed 5,
    odometer_end := RawField.parsed 150, fuel_used := RawField.empty,
    fuel_cost := RawField.empty, remarks := "" }

/-- The trip row after `trip_end stActive endFormOk` commits. -/
def tripEnded : Trip :=
  { trip0 with
    end_actual_datetime := some 5,
    odometer_end := some 150,
    distance := some 50 }

/-- The state `trip_end stActive endFormOk` commits. -/
def stEnded : TripDB :=
  { booking := { bkgApproved with status := BStatus.completed },
    trip := some tripEnded,
    vehicle := veh1 }

/-- Witness for claim C6 at concrete states. -/
theorem trip_lifecycle_spec_witness :
    (trip_start { booking := bkg1, trip := none, vehicle := veh1 }
        startFormOk =
      ({ booking := bkg1, trip := none, vehicle := veh1 }, false)) ∧
    (trip_end { booking := bkgApproved, trip := none, vehicle := veh1 }
        endFormOk =
      ({ booking := bkgApproved, trip := none, vehicle := veh1 }, false)) ∧
    stEnded.booking.status = BStatus.completed :=
  ⟨trip_lifecycle_spec.1 _ _ (Or.inl (by decide)),
   trip_lifecycle_spec.2.1 _ _ (Or.inl rfl),
   trip_lifecycle_spec.2.2 stActive endFormOk stEnded (by decide)⟩

/-- Claim C8: whenever `trip_end` commits, the stored trip's distance is
`odometer_end - odometer_start` and is non-negative; a submitted end
odometer smaller than the trip's start odometer is rejected with no state
change. -/
theorem trip_end_distance_spec :
    (∀ st f r t t1, st.trip = some t → trip_end st f = (r, true) →
        r.trip = some t1 →
        ∃ oe, t1.odometer_end = some oe ∧
          t1.distance = some (oe - t.odometer_start) ∧
          t.odometer_start ≤ oe ∧ 0 ≤ oe - t.odometer_start) ∧
    (∀ st f t oe, st.trip = some t → f.odometer_end = RawField.parsed oe →
        oe < t.odometer_start → trip_end st f = (st, false)) := by
  constructor
  · intro st f r t t1 hT h hr
    simp only [trip_end, hT] at h
    split at h
    · simp at h
    · rename_i hend
      split at h
      · simp at h
      · rename_i hnoerr
        split at h
        · rename_i e oe hfe hfo
          rw [not_ne_iff] at hnoerr
          unfold tripEndErrors at hnoerr
          obtain ⟨h1, -⟩ := List.append_eq_nil.mp hnoerr
          obtain ⟨h2, -⟩ := List.append_eq_nil.mp h1
          obtain ⟨-, hD⟩ := List.append_eq_nil.mp h2
          simp only [hfo] at hD
          have hle : t.odometer_start ≤ oe := by
            by_contra hlt
            rw [not_le] at hlt
            simp [hlt] at hD
          simp only [Prod.mk.injEq] at h
          rw [← h.1] at hr
          simp only [Option.some.injEq] at hr
          subst hr
          exact ⟨oe, rfl, rfl, hle, by omega⟩
        · simp at h
  · intro st f t oe hT hfo hlt
    simp only [trip_end, hT]
    split
    · rfl
    · have hmem : "End odometer cannot be less than start odometer." ∈
          tripEndErrors t f := by
        simp [tripEndErrors, hfo, hlt]
      simp [List.ne_nil_of_mem hmem]

/-- A `trip_end` form whose end odometer is below the start odometer. -/
def endFormLow : TripEndForm :=
  { endFormOk with odometer_end := RawField.parsed 50 }

/-- Witness for claim C8 at a concrete state. -/
theorem trip_end_distance_spec_witness :
    (∃ oe, tripEnded.odometer_end = some oe ∧
      tripEnded.distance = some (oe - trip0.odometer_start) ∧
      trip0.odometer_start ≤ oe ∧ 0 ≤ oe - trip0.odometer_start) ∧
    trip_end stActive endFormLow = (stActive, false) :=
  ⟨trip_end_distance_spec.1 stActive endFormOk stEnded trip0
      tripEnded (by decide) (by decide) (by decide),
   trip_end_distance_spec.2 stActive endFormLow trip0 50 (by decide)
      (by decide) (by decide)⟩

/-- The new-booking form of `booking_add` (`app.py` lines 757-845).
`vehicle_id` 0 models a missing or unparsable selection, as in the source;
text fields arrive already stripped. -/
structure BookingForm where
  vehicle_id : Nat
  start_datetime_planned : RawField Int
  end_datetime_planned : RawField Int
  route_from : String
  route_to : String
  purpose : String
  activity_code : String
  project_code : String
  driver_id : Option Nat
deriving DecidableEq, Repr

/-- The fleet state the booking routes read and write. -/
structure FleetDB where
  vehicles : List Vehicle
  bookings : List Booking
deriving DecidableEq, Repr

/-- Validation errors of the `booking_add` POST handler (`app.py` lines
757-813), in source order: vehicle selection, date fields, route and
purpose, date logic, then vehicle existence and maintenance status. -/
def bookingAddErrors (db : FleetDB) (f : BookingForm) (now : Int) :
    List String :=
  (if f.vehicle_id == 0 then ["Please select a vehicle."] else []) ++
  (match f.start_datetime_planned with
    | RawField.empty => ["Planned start date/time is required."]
    | RawField.invalid => ["Invalid start date/time format."]
    | RawField.parsed _ => []) ++
  (match f.end_datetime_planned with
    | RawField.empty => ["Planned end date/time is required."]
    | RawField.invalid => ["Invalid end date/time format."]
    | RawField.parsed _ => []) ++
  (if f.route_from = "" then ["Route From is required."] else []) ++
  (if f.route_to = "" then ["Route To is required."] else []) ++
  (if f.purpose = "" then ["Purpose is required."] else []) ++
  (match f.start_datetime_planned, f.end_datetime_planned with
    | RawField.parsed s, RawField.parsed e =>
        (if e ≤ s then ["End date/time must be after start date/time."]
         else []) ++
        (if s < now then ["Start date/time cannot be in the past."] else [])
    | _, _ => []) ++
  (if f.vehicle_id == 0 then []
   else
     match db.vehicles.find? (fun v => v.id == f.vehicle_id) with
     | none => ["Selected vehicle does not exist."]
     | some v =>
         if v.status = VStatus.maintenance then
           ["Vehicle is currently under maintenance and cannot be booked."]
         else [])

/-- The `Booking` row `booking_add` inserts (`app.py` lines 834-847). -/
def mkBookingRow (f : BookingForm) (requesterId : Nat)
    (requesterName : String) (newId : Nat) (s e now : Int) : Booking :=
  { id := newId, requester_name := requesterName,
    requester_id := some requesterId, driver_id := f.driver_id,
    vehicle_id := f.vehicle_id, start_datetime_planned := s,
    end_datetime_planned := e, route_from := f.route_from,
    route_to := f.route_to, purpose := f.purpose,
    activity_code := some f.activity_code,
    project_code := some f.project_code, status := BStatus.pending,
    created_at := now, updated_at := now }

/-- How a `booking_add` request ends: re-rendered with errors (validation
failure or pre-insert conflict), rolled back after the post-flush conflict
check, or committed. -/
inductive AddOutcome where
  | rejected (msgs : List String)
  | conflictAfterFlush
  | created
deriving DecidableEq, Repr

/-- `booking_add` POST (`app.py` lines 744-910): validate, pre-check for a
conflict, insert and flush the new row, then re-check excluding the new
row's own id; roll back on conflict, otherwise commit.  `concurrent`
models rows committed by other sessions inside the race window between
this session's flush and its second conflict check; this session's
rollback removes only its own uncommitted row, never those. -/
def booking_add (db : FleetDB) (f : BookingForm) (now : Int)
    (requesterId : Nat) (requesterName : String) (newId : Nat)
    (concurrent : List Booking) : AddOutcome × List Booking :=
  let errs := bookingAddErrors db f now
  match f.start_datetime_planned, f.end_datetime_planned with
  | RawField.parsed s, RawField.parsed e =>
    if errs ≠ [] then (AddOutcome.rejected errs, db.bookings)
    else
      match check_booking_conflict db.bookings f.vehicle_id s e none with
      | some _ =>
          (AddOutcome.rejected ["This vehicle is already booked."],
           db.bookings)
      | none =>
          let newB := mkBookingRow f requesterId requesterName newId s e now
          let flushed := db.bookings ++ [newB] ++ concurrent
          match check_booking_conflict flushed f.vehicle_id s e
              (some newId) with
          | some _ => (AddOutcome.conflictAfterFlush,
                       db.bookings ++ concurrent)
          | none => (AddOutcome.created, flushed)
  | _, _ => (AddOutcome.rejected errs, db.bookings)

/-- Claim C4: when the second conflict check (run after the provisional
insert, excluding the new booking's own id) finds a conflict, the
transaction is rolled back: the new booking is not persisted and the
stored booking set is exactly what it was apart from rows other sessions
committed, and that second check did fire on the flushed store. -/
theorem booking_add_conflict_rollback (db : FleetDB) (f : BookingForm)
    (now : Int) (rid : Nat) (rname : String) (newId : Nat)
    (concurrent res : List Booking)
    (h : booking_add db f now rid rname newId concurrent =
      (AddOutcome.conflictAfterFlush, res)) :
    res = db.bookings ++ concurrent ∧
      ∃ s e, f.start_datetime_planned = RawField.parsed s ∧
        f.end_datetime_planned = RawField.parsed e ∧
        (check_booking_conflict
            (db.bookings ++ [mkBookingRow f rid rname newId s e now] ++
              concurrent)
            f.vehicle_id s e (some newId)).isSome = true := by
  simp only [booking_add] at h
  split at h
  · rename_i s e hfs hfe
    split at h
    · simp at h
    · split at h
      · simp at h
      · split at h
        · rename_i c hc
          simp only [Prod.mk.injEq] at h
          exact ⟨h.2.symm, s, e, hfs, hfe, by rw [hc]; rfl⟩
        · simp at h
  · simp at h

/-- A fleet with one available vehicle and no bookings. -/
def dbEmpty : FleetDB := { vehicles := [veh1], bookings := [] }

/-- A well-formed booking form for vehicle 1 over `[0, 10]`. -/
def formOk : BookingForm :=
  { vehicle_id := 1, start_datetime_planned := RawField.parsed 0,
    end_datetime_planned := RawField.parsed 10, route_from := "HQ",
    route_to := "Site", purpose := "Delivery", activity_code := "",
    project_code := "", driver_id := none }

/-- Witness for claim C4: a row committed concurrently inside the race
window makes the post-flush check fire and the insert roll back. -/
theorem booking_add_conflict_rollback_witness :
    [bkg2] = dbEmpty.bookings ++ [bkg2] ∧
      ∃ s e, formOk.start_datetime_planned = RawField.parsed s ∧
        formOk.end_datetime_planned = RawField.parsed e ∧
        (check_booking_conflict
            (dbEmpty.bookings ++ [mkBookingRow formOk 7 "R" 5 s e 0] ++
              [bkg2])
            formOk.vehicle_id s e (some 5)).isSome = true :=
  booking_add_conflict_rollback dbEmpty formOk 0 7 "R" 5 [bkg2] [bkg2]
    (by decide)

/-- Claim C5: a vehicle whose status is `maintenance` cannot receive new
bookings: `booking_add` reports a validation error and the stored booking
set is unchanged, so no booking row is created. -/
theorem booking_add_maintenance_rejected (db : FleetDB) (f : BookingForm)
    (now : Int) (rid : Nat) (rname : String) (newId : Nat)
    (concurrent : List Booking) (v : Vehicle)
    (hv : db.vehicles.find? (fun x => x.id == f.vehicle_id) = some v)
    (hm : v.status = VStatus.maintenance) :
    ∃ msgs, booking_add db f now rid rname newId concurrent =
      (AddOutcome.rejected msgs, db.bookings) := by
  have herr : bookingAddErrors db f now ≠ [] := by
    unfold bookingAddErrors
    by_cases h0 : f.vehicle_id == 0
    · simp [h0]
    · simp [h0, hv, hm]
  simp only [booking_add]
  split
  · rw [if_pos herr]
    exact ⟨_, rfl⟩
  · exact ⟨_, rfl⟩

/-- `veh1` while under maintenance. -/
def vehMaint : Vehicle := { veh1 with status := VStatus.maintenance }

/-- A fleet whose only vehicle is under maintenance, with one booking. -/
def dbMaint : FleetDB := { vehicles := [vehMaint], bookings := [bkg1] }

/-- Witness for claim C5 at a concrete fleet. -/
theorem booking_add_maintenance_rejected_witness :
    ∃ msgs, booking_add dbMaint formOk 0 7 "R" 5 [] =
      (AddOutcome.rejected msgs, dbMaint.bookings) :=
  booking_add_maintenance_rejected dbMaint formOk 0 7 "R" 5 [] vehMaint
    (by decide) (by decide)

/-- `booking_cancel` (`app.py` lines 1021-1066): only a pending or approved
booking is cancelled; otherwise the booking is untouched and a warning is
flashed.  The `Bool` is whether the cancellation was applied. -/
def booking_cancel (b : Booking) : Booking × Bool :=
  if b.status = BStatus.pending ∨ b.status = BStatus.approved then
    ({ b with status := BStatus.cancelled }, true)
  else (b, false)

/-- Claim C9: `booking_cancel` sets the status to `cancelled` exactly when
the current status is pending or approved, and leaves a completed or
cancelled booking entirely unchanged, so cancellation never moves a
booking out of a terminal state. -/
theorem booking_cancel_spec :
    (∀ b, (b.status = BStatus.pending ∨ b.status = BStatus.approved) →
      booking_cancel b = ({ b with status := BStatus.cancelled }, true)) ∧
    (∀ b, (b.status = BStatus.completed ∨ b.status = BStatus.cancelled) →
      booking_cancel b = (b, false)) := by
  constructor
  · intro b h
    unfold booking_cancel
    rw [if_pos h]
  · intro b h
    rcases h with h | h <;> simp [booking_cancel, h]

/-- `bkg1` after completion. -/
def bkgDone : Booking := { bkg1 with status := BStatus.completed }

/-- Witness for claim C9 at concrete bookings. -/
theorem booking_cancel_spec_witness :
    booking_cancel bkg1 = ({ bkg1 with status := BStatus.cancelled }, true) ∧
      booking_cancel bkgDone = (bkgDone, false) :=
  ⟨booking_cancel_spec.1 bkg1 (Or.inl rfl),
   booking_cancel_spec.2 bkgDone (Or.inl rfl)⟩

/-- `maintenance_complete` (`app.py` lines 1336-1349): marks the record
completed with completion date `today`, optionally overwrites the cost,
and unconditionally sets the record's vehicle back to `available`. -/
def maintenance_complete (rec : MaintenanceRecord) (veh : Vehicle)
    (today : Int) (costForm : Option Rat) : MaintenanceRecord × Vehicle :=
  ({ rec with
     status := MStatus.completed,
     completed_date := some today,
     cost := (match costForm with | some c => some c | none => rec.cost) },
   { veh with status := VStatus.available })

/-- `maintenance_cancel` (`app.py` lines 1352-1362): marks the record
cancelled and resets the vehicle to `available` only when the vehicle is
currently under `maintenance`. -/
def maintenance_cancel (rec : MaintenanceRecord) (veh : Vehicle) :
    MaintenanceRecord × Vehicle :=
  ({ rec with status := MStatus.cancelled },
   if veh.status = VStatus.maintenance then
     { veh with status := VStatus.available }
   else veh)

/-- Claim C10: `maintenance_complete` sets the record's vehicle to
`available` unconditionally (in particular even from `in_use`), whereas
`maintenance_cancel` resets the vehicle to `available` only when its
status is currently `maintenance` and otherwise leaves the vehicle
unchanged. -/
theorem maintenance_vehicle_status_spec :
    (∀ rec veh today costForm,
      (maintenance_complete rec veh today costForm).2.status =
        VStatus.available) ∧
    (∀ rec veh, veh.status = VStatus.maintenance →
      (maintenance_cancel rec veh).2.status = VStatus.available) ∧
    (∀ rec veh, veh.status ≠ VStatus.maintenance →
      (maintenance_cancel rec veh).2 = veh) := by
  refine ⟨fun _ _ _ _ => rfl, ?_, ?_⟩
  · intro rec veh h
    simp [maintenance_cancel, h]
  · intro rec veh h
    simp [maintenance_cancel, h]

/-- A concrete scheduled maintenance record for vehicle 1. -/
def recM : MaintenanceRecord :=
  { id := 1, vehicle_id := 1, maintenance_type := "repair",
    description := "brakes", scheduled_date := 0, completed_date := none,
    cost := none, status := MStatus.scheduled, created_by_id := none }

/-- `veh1` while in use. -/
def vehInUse : Vehicle := { veh1 with status := VStatus.in_use }

/-- Witness for claim C10 at concrete records and vehicles, including the
`in_use` case of `maintenance_complete`. -/
theorem maintenance_vehicle_status_spec_witness :
    (maintenance_complete recM vehInUse 1 none).2.status =
        VStatus.available ∧
      (maintenance_cancel recM vehMaint).2.status = VStatus.available ∧
      (maintenance_cancel recM vehInUse).2 = vehInUse :=
  ⟨maintenance_vehicle_status_spec.1 recM vehInUse 1 none,
   maintenance_vehicle_status_spec.2.1 recM vehMaint rfl,
   maintenance_vehicle_status_spec.2.2 recM vehInUse (by decide)⟩

/-- Claim C7 (refuted by the model layer): the `users` table declared in
`models.py` carries identity, role, active flag and password hash, but no
forced-password-change flag and no password-reset token or expiry columns,
even though `app.py` and the test suite construct and read
`must_change_password`, `password_reset_token` and `password_reset_expiry`
on `User`. -/
theorem user_columns_missing_reset_fields :
    userColumns.contains "must_change_password" = false ∧
    userColumns.contains "password_reset_token" = false ∧
    userColumns.contains "password_reset_expiry" = false ∧
    userColumns.contains "role" = true ∧
    userColumns.contains "is_active_user" = true ∧
    userColumns.contains "password_hash" = true := by
  decide

end Cosme
